import Mathlib

/-!
Verification development for the Station-Manager `logging` module.

The Go sources are shallowly embedded:

* `buildErrorChain` (src/helper.go) walks an error's cause chain.  Go error
  values may be cyclic (an error whose cause accessor returns itself), so
  errors are modelled as nodes of a finite graph: an `ErrHeap` is a list of
  `ErrNode`s and a Go `error` value is an `Option Nat` index into the heap
  (`none` is the nil error).  A node is either operation-tagged (the external
  `Station-Manager/errors` `DetailedError` capability: message, operation
  label, typed cause accessor) or a generic error (message, stdlib
  single-cause unwrap).  The Go loop `for err != nil && visited < maxDepth`
  is rendered as structural recursion on the remaining fuel
  `maxDepth - visited`, which makes the function total by construction.

* The `Service` lifecycle (src/service.go), the begin-operation protocol
  (src/helper.go `logEventBuilder`) and the tracked terminal calls
  (src/internal.go `trackedLogEvent.Msg/Msgf/Send`) are embedded as explicit
  state passing over `ServiceState`.  The claims under verification are about
  sequential executions (sequences of matched calls), so the RWMutex
  acquisitions in the code are the points where the state is re-read, the
  atomic loads/stores become field reads/updates, and `Close`'s bounded wait
  on the WaitGroup returns immediately (no operation is in flight between
  the sequential steps).  The warning record optionally emitted on shutdown
  timeout writes to the captured logger and touches no `Service` state, so
  it has no footprint in the state model.  A nil `*Service` receiver is the
  `none` case of `Option ServiceState`.  External collaborators used by
  `Initialize` (config retrieval via `ConfigService`, `validateConfig`
  which defers to the external validator and zerolog's level parser, the
  path/executable utilities, and zerolog level parsing) are modelled as
  oracles collected in `InitEnv`; `sync.Once` is the `onceDone` flag plus
  the stored `initErr`.

* `Service.Dump` / `dumpValue` (src/dump.go) reflectively walks an arbitrary
  runtime value.  Go runtime values may be cyclic through pointers, so values
  are modelled as `GoVal` trees whose pointer leaves carry a numeric address
  into a `List GoVal` heap.  The Go recursion increments `depth` and stops
  when `depth > maxDumpDepth`; this is rendered as fuel
  `maxDumpDepth + 1 - depth`, again total by construction.  Emitted records
  are the exact strings produced by the code's `Msgf` calls; associative
  container iteration order (randomised by the Go runtime) is abstracted as
  the model's list order.
-/

namespace StationLogging

/-! ## Error chain analyzer (src/helper.go `buildErrorChain`) -/

/-- The shape of one Go error value: either a `Station-Manager/errors`
`DetailedError` (operation-tagged, recognised by `smerrors.AsDetailedError`)
or a generic error reachable only through `errors.Unwrap`. -/
inductive ErrKind where
  | detailed : ErrKind
  | generic : ErrKind
deriving DecidableEq, Repr

/-- One error value in the error graph.  `msg` is what `Error()` returns
(for a `DetailedError` this is its message, as the repository's own test
`TestBuildErrorChain_WithDetailedAndStd` exhibits), `op` is `Op()` (unused
for generic nodes), and `cause` is `Cause()` resp. `errors.Unwrap` — `none`
for a nil cause, otherwise an index into the heap. -/
structure ErrNode where
  kind : ErrKind
  msg : String
  op : String
  cause : Option Nat
deriving DecidableEq, Repr

/-- An error graph; Go error values are indices into it, permitting cyclic
cause chains. -/
abbrev ErrHeap := List ErrNode

/-- The loop body of `buildErrorChain` (src/helper.go lines 35-59), with
`fuel = maxDepth - visited`.  `chain`/`ops` are the accumulated slices and
`seen` is the set of generic messages already emitted. -/
def buildErrorChainAux (heap : ErrHeap) :
    Nat → Option Nat → List String → List String → List String →
    List String × List String
  | 0, _, chain, ops, _ => (chain, ops)
  | _ + 1, none, chain, ops, _ => (chain, ops)
  | fuel + 1, some i, chain, ops, seen =>
    match heap[i]? with
    | none => (chain, ops)
    | some node =>
      match node.kind with
      | .detailed =>
        -- DetailedError branch: append msg and op, descend via Cause()
        buildErrorChainAux heap fuel node.cause
          (chain ++ [node.msg]) (ops ++ [node.op]) seen
      | .generic =>
        -- generic branch: message-equality cycle guard, then stdlib unwrap
        if node.msg ∈ seen then (chain, ops)
        else
          buildErrorChainAux heap fuel node.cause
            (chain ++ [node.msg]) (ops ++ [""]) (node.msg :: seen)

/-- The constant `maxDepth` of src/helper.go line 31. -/
def maxErrDepth : Nat := 50

/-- src/helper.go `buildErrorChain`: returns
`(chain, ops, root, rootOp)` with root/rootOp the last entries (empty when
the lists are empty). -/
def buildErrorChain (heap : ErrHeap) (err : Option Nat) :
    List String × List String × String × String :=
  let r := buildErrorChainAux heap maxErrDepth err [] [] []
  (r.1, r.2, (r.1.getLast?).getD "", (r.2.getLast?).getD "")

/-- The 3-link operation-tagged chain A(cause=B(cause=C)) used by claims
C4 and C5: index 0 is the outermost link. -/
def threeLinkHeap (a b c oa ob oc : String) : ErrHeap :=
  [⟨.detailed, a, oa, some 1⟩, ⟨.detailed, b, ob, some 2⟩,
   ⟨.detailed, c, oc, none⟩]

/-- A generic wrapper placed on top of the 3-link chain (claim C5); the
wrapper is node 0 and unwraps to the detailed chain at nodes 1-3. -/
def genericWrapHeap (g a b c oa ob oc : String) : ErrHeap :=
  ⟨.generic, g, "", some 1⟩ ::
    [⟨.detailed, a, oa, some 2⟩, ⟨.detailed, b, ob, some 3⟩,
     ⟨.detailed, c, oc, none⟩]

/-- A single operation-tagged error whose cause accessor returns itself
(claim C10). -/
def selfErrHeap (m o : String) : ErrHeap := [⟨.detailed, m, o, some 0⟩]

/-! ## Service lifecycle (src/service.go) and begin-operation protocol -/

/-- zerolog severity values (zerolog.Level is an int8). -/
def traceLevel : Int := -1

def debugLevel : Int := 0

def infoLevel : Int := 1

def warnLevel : Int := 2

def errorLevel : Int := 3

def fatalLevel : Int := 4

def panicLevel : Int := 5

def noLevel : Int := 6

def disabledLevel : Int := 7

/-- The `types.LoggingConfig` record — the configuration fields the logging code
reads. -/
structure LoggingConfig where
  level : String
  withTimestamp : Bool
  skipFrameCount : Int
  relLogFileDir : String
  consoleLogging : Bool
  fileLogging : Bool
  logFileMaxSizeMB : Int
  logFileMaxAgeDays : Int
  logFileMaxBackups : Int
  shutdownTimeoutMS : Int
  shutdownTimeoutWarning : Bool
deriving DecidableEq, Repr

/-- The published `zerolog.Logger` snapshot: severity threshold
(`GetLevel()`) plus the static field policy applied during `Initialize`. -/
structure Logger where
  level : Int
  withTimestamp : Bool
  skipFrameCount : Int
deriving DecidableEq, Repr

/-- The owned `lumberjack.Logger` rotating-file sink.  `closeErr` is the
oracle for what its `Close()` will return (`none` = success). -/
structure FileWriter where
  filename : String
  closeErr : Option String
deriving DecidableEq, Repr

/-- The `Service` struct (src/service.go lines 18-30).  `hasConfigService`
stands for `ConfigService != nil`; `onceDone` and `initErr` embed the
`sync.Once` plus stored first-result; `wg` is the WaitGroup counter.  The
RWMutex has no sequential state. -/
structure ServiceState where
  workingDir : String
  hasConfigService : Bool
  loggingConfig : Option LoggingConfig
  fileWriter : Option FileWriter
  logger : Option Logger
  isInitialized : Bool
  onceDone : Bool
  initErr : Option String
  activeOps : Int
  wg : Int
deriving DecidableEq, Repr

/-- Oracles for the external collaborators consumed by `Initialize`:
`ConfigService.LoggingConfig()`, `validateConfig` (external validator plus
zerolog's parser), `utils.AbsDirPathForExecutable`, `utils.PathExists`,
`os.MkdirAll`, `utils.ExecName`, zerolog's `ParseLevel` (wrapped by
src/helper.go `parseLevel`), and the result the constructed file sink's
`Close()` will later produce. -/
structure InitEnv where
  loggingConfigRes : Except String LoggingConfig
  validateRes : LoggingConfig → Option String
  absDirPathRes : Except String String
  pathExistsRes : String → Except String Bool
  mkdirAllRes : String → Option String
  execNameRes : Except String String
  parseLevelRes : String → Except String Int
  fwCloseErr : Option String

/-- Path join (`filepath.Join`) as used on the paths handed to the oracles. -/
def joinPath (a b : String) : String := a ++ "/" ++ b

/-- src/internal.go `InitializeRollingFileLogger`: empty executable name
falls back to "app"; the sink file is `workingDir/relDir/exeName.log`. -/
def InitializeRollingFileLogger (st : ServiceState) (cfg : LoggingConfig)
    (exeName : String) (closeErr : Option String) : FileWriter :=
  let exe := if exeName = "" then "app" else exeName
  ⟨joinPath (joinPath st.workingDir cfg.relLogFileDir) (exe ++ ".log"),
    closeErr⟩

/-- src/internal.go `InitializeWriters`: if both console and file sinks are
disabled, force the file sink on; construct and own the rotating-file sink
when file logging is enabled.  (The returned writer list itself feeds the
zerolog constructor and carries no further state.) -/
def InitializeWriters (st : ServiceState) (exeName : String)
    (fwCloseErr : Option String) : ServiceState :=
  match st.loggingConfig with
  | none => st  -- unreachable: Initialize stores LoggingConfig first
  | some cfg =>
    let cfg :=
      if !cfg.consoleLogging && !cfg.fileLogging then
        { cfg with fileLogging := true }
      else cfg
    let st := { st with loggingConfig := some cfg }
    if cfg.fileLogging then
      { st with
        fileWriter :=
          some (InitializeRollingFileLogger st cfg exeName fwCloseErr) }
    else st

/-- The body of `s.initOnce.Do(func() {...})` in src/service.go
`Initialize` (lines 43-107): on the first failing step it records the error
in `initErr` and returns; on success it publishes the logger and flips
`isInitialized`.  Error strings carry the code's wrap text. -/
def initBody (env : InitEnv) (st : ServiceState) : ServiceState :=
  match env.loggingConfigRes with
  | .error e => { st with initErr := some ("s.AppConfig.LoggingConfig: " ++ e) }
  | .ok cfg =>
    match env.validateRes cfg with
    | some e => { st with initErr := some ("validateConfig: " ++ e) }
    | none =>
      let st := { st with loggingConfig := some cfg }
      match (if st.workingDir = "" then env.absDirPathRes
             else .ok st.workingDir : Except String String) with
      | .error e =>
        { st with initErr := some ("utils.AbsDirPathForExecutable: " ++ e) }
      | .ok wd =>
        let st := { st with workingDir := wd }
        let loggingDir := joinPath st.workingDir cfg.relLogFileDir
        match env.pathExistsRes loggingDir with
        | .error e => { st with initErr := some ("utils.PathExists: " ++ e) }
        | .ok pexists =>
          match (if pexists then none else env.mkdirAllRes loggingDir :
              Option String) with
          | some e => { st with initErr := some ("os.MkdirAll: " ++ e) }
          | none =>
            match env.execNameRes with
            | .error e => { st with initErr := some ("utils.ExecName: " ++ e) }
            | .ok exeName =>
              let st := InitializeWriters st exeName env.fwCloseErr
              match env.parseLevelRes cfg.level with
              | .error e => { st with initErr := some ("parseLevel: " ++ e) }
              | .ok level =>
                { st with
                    logger := some ⟨level, cfg.withTimestamp,
                      cfg.skipFrameCount⟩,
                    isInitialized := true }

/-- src/service.go `Initialize` (lines 33-110): nil-receiver and
nil-ConfigService pre-checks, the `sync.Once`-guarded body, and the return
of the stored `initErr`. -/
def Initialize (env : InitEnv) :
    Option ServiceState → Option String × Option ServiceState
  | none => (some "Logger service is nil.", none)
  | some st =>
    if !st.hasConfigService then
      (some "Application config is not set.", some st)
    else if st.onceDone then (st.initErr, some st)
    else
      let st1 := initBody env { st with onceDone := true }
      (st1.initErr, some st1)

/-- src/service.go `Close` (lines 112-190) in the sequential model: nil and
not-initialized receivers return immediately; otherwise flip the gate, clear
the published logger, (wait — immediate here), then release the owned file
sink under the lock and surface its close error if any. -/
def close : Option ServiceState → Option String × Option ServiceState
  | none => (none, none)
  | some st =>
    if !st.isInitialized then (none, some st)
    else
      let st := { st with isInitialized := false, logger := none }
      let fw := st.fileWriter
      let st := { st with fileWriter := none }
      match fw with
      | none => (none, some st)
      | some w =>
        match w.closeErr with
        | none => (none, some st)
        | some e => (some ("fileWriter.Close: " ++ e), some st)

/-- What a severity entry point hands back: the inert no-op builder
(`newLogEvent(nil)`) or a tracked builder carrying the service
back-reference (`newTrackedLogEvent`). -/
inductive BuiltEvent where
  | noop : BuiltEvent
  | tracked : Int → BuiltEvent
deriving DecidableEq, Repr

/-- src/helper.go `logEventBuilder` (lines 82-147) on a non-nil service:
gate check, NoLevel check, early counter/WaitGroup increment, re-check under
the read lock, snapshot load, severity threshold check (undo on the
disabled path), event construction switch (undo on the default arm). -/
def logEventBuilderSt (st : ServiceState) (level : Int) :
    BuiltEvent × ServiceState :=
  if !st.isInitialized then (.noop, st)
  else if level = noLevel then (.noop, st)
  else
    let st1 := { st with activeOps := st.activeOps + 1, wg := st.wg + 1 }
    if !st1.isInitialized then
      (.noop, { st1 with activeOps := st1.activeOps - 1, wg := st1.wg - 1 })
    else
      match st1.logger with
      | none =>
        (.noop, { st1 with activeOps := st1.activeOps - 1, wg := st1.wg - 1 })
      | some lg =>
        if lg.level > level then
          (.noop,
            { st1 with activeOps := st1.activeOps - 1, wg := st1.wg - 1 })
        else if level = debugLevel ∨ level = infoLevel ∨ level = warnLevel
            ∨ level = errorLevel ∨ level = fatalLevel ∨ level = panicLevel
            ∨ level = traceLevel then
          (.tracked level, st1)
        else
          (.noop,
            { st1 with activeOps := st1.activeOps - 1, wg := st1.wg - 1 })

/-- src/helper.go `logEventBuilder` including the nil-receiver guard. -/
def logEventBuilder (s : Option ServiceState) (level : Int) :
    BuiltEvent × Option ServiceState :=
  match s with
  | none => (.noop, none)
  | some st =>
    let r := logEventBuilderSt st level
    (r.1, some r.2)

/-- src/service.go severity entry points `TraceWith` … `PanicWith`. -/
def traceWith (s : Option ServiceState) : BuiltEvent × Option ServiceState :=
  logEventBuilder s traceLevel

def debugWith (s : Option ServiceState) : BuiltEvent × Option ServiceState :=
  logEventBuilder s debugLevel

def infoWith (s : Option ServiceState) : BuiltEvent × Option ServiceState :=
  logEventBuilder s infoLevel

def warnWith (s : Option ServiceState) : BuiltEvent × Option ServiceState :=
  logEventBuilder s warnLevel

def errorWith (s : Option ServiceState) : BuiltEvent × Option ServiceState :=
  logEventBuilder s errorLevel

def fatalWith (s : Option ServiceState) : BuiltEvent × Option ServiceState :=
  logEventBuilder s fatalLevel

def panicWith (s : Option ServiceState) : BuiltEvent × Option ServiceState :=
  logEventBuilder s panicLevel

/-- src/internal.go `trackedLogEvent.Msg`/`Msgf`/`Send` (lines 1848-1876):
every terminal call on a tracked builder decrements the active-operations
counter and the WaitGroup exactly once (deferred, so also on the nil-event
path).  The record write itself has no `Service`-state footprint. -/
def trackedTerminal (st : ServiceState) : ServiceState :=
  { st with activeOps := st.activeOps - 1, wg := st.wg - 1 }

/-- One matched begin-operation/terminal-call pair: a terminal call on the
no-op builder is `logEvent.Msg` with a nil event and touches nothing; a
terminal call on the tracked builder runs `trackedLogEvent.Msg`. -/
def runPair (st : ServiceState) (level : Int) : ServiceState :=
  match logEventBuilderSt st level with
  | (.noop, st1) => st1
  | (.tracked _, st1) => trackedTerminal st1

/-- A fresh zero-value `Service` whose `ConfigService` field has been
injected (the state every `Initialize` first call starts from). -/
def freshService : ServiceState :=
  ⟨"", true, none, none, none, false, false, none, 0, 0⟩

/-- An initialized service snapshot at info threshold, used as a concrete
input by witnesses. -/
def readyService : ServiceState :=
  ⟨"/wd", true, none, some ⟨"/wd/logs/app.log", none⟩,
    some ⟨infoLevel, true, 0⟩, true, true, none, 0, 0⟩

/-- An environment whose config retrieval fails — a concrete failing
`Initialize` run. -/
def failingEnv : InitEnv :=
  ⟨.error "boom", fun _ => none, .ok "/exe", fun _ => .ok true,
    fun _ => none, .ok "app", fun _ => .ok infoLevel, none⟩

/-! ## Generic value dumper (src/dump.go) -/

/-- A Go runtime value as seen by `reflect.ValueOf` on an `interface{}`
argument (which always yields a concrete kind, never an interface kind).
Pointers carry a numeric address into a heap of pointees so that cyclic
object graphs are representable; `structV` fields carry their
exported-ness (`CanInterface`); `seqV` covers both slices and arrays
(`capv` is `Cap()`); `mapV` entries use the key's `%v` text. -/
inductive GoVal where
  | nilIface : GoVal
  | scalar (txt : String) : GoVal
  | ptrNil : GoVal
  | ptrTo (addr : Nat) : GoVal
  | structV (name : String) (fields : List (String × Bool × GoVal)) : GoVal
  | mapV (keyTy valTy : String) (entries : List (String × GoVal)) : GoVal
  | seqV (tyStr : String) (capv : Nat) (elems : List GoVal) : GoVal

/-- The constant `maxDumpDepth` of src/dump.go line 59. -/
def maxDumpDepth : Nat := 10

/-- The constant `maxElements` of src/dump.go line 174. -/
def dumpMaxElements : Nat := 10

/-- The shared shape of the three child loops of src/dump.go `dumpValue`
(struct fields, lines 131-146; map entries, lines 156-165; indexed
elements, lines 175-185): walk a list of (path, value) pairs, dumping each
value under its path, threading the shared visited set left to right and
concatenating the emitted records. -/
def dumpIter (child : GoVal → String → List Nat → List String × List Nat) :
    List (String × GoVal) → List Nat → List String × List Nat
  | [], visited => ([], visited)
  | (p, v) :: rest, visited =>
    let r := child v p visited
    let r2 := dumpIter child rest r.2
    (r.1 ++ r2.1, r2.2)

/-- The (path, value) pairs the struct-field loop visits: unexported fields
are skipped (`CanInterface`) and the dotted path accumulates. -/
def structItems (pfx : String) (fields : List (String × Bool × GoVal)) :
    List (String × GoVal) :=
  (fields.filter (fun f => f.2.1)).map
    (fun f => (if pfx = "" then f.1 else pfx ++ "." ++ f.1, f.2.2))

/-- The (path, value) pairs the map-entry loop visits. -/
def mapItems (pfx : String) (entries : List (String × GoVal)) :
    List (String × GoVal) :=
  entries.map (fun e => (pfx ++ "[" ++ e.1 ++ "]", e.2))

/-- The (path, value) pairs of the indexed element loop
`for i := 0; i < val.Len() && i < maxElements; i++`, with `i` the running
index. -/
def seqItems (pfx : String) : Nat → List GoVal → List (String × GoVal)
  | _, [] => []
  | i, e :: rest =>
    if i < dumpMaxElements then
      (pfx ++ "[" ++ toString i ++ "]", e) :: seqItems pfx (i + 1) rest
    else []

/-- src/dump.go `dumpValue` (lines 62-201), by structural recursion on
`fuel = maxDumpDepth + 1 - depth`, so `fuel = 0` is exactly the code's
`depth > maxDumpDepth` guard and children run one fuel lower.  The unwrap
loop unwraps at most one pointer per call (its `Interface` arm is
unreachable because `reflect.ValueOf` never yields an interface kind, and
the `Ptr` arm falls through to the loop's `break`); after a pointer is
unwrapped the pointee is addressable at the pointer's own address, which
the pointer arm has just recorded in `visited` — hence the second
membership test, mirroring the `val.CanAddr()`/`val.Addr().Pointer()`
check.  `kindSwitch` is the kind switch of lines 121-200 on the unwrapped
concrete value; its pointer/nil arms are the unreachable `%v` default. -/
def dumpValue (heap : List GoVal) :
    Nat → GoVal → String → List Nat → List String × List Nat
  | 0, _, pfx, visited => ([pfx ++ ": <max depth reached>"], visited)
  | cfuel + 1, v, pfx, visited =>
    let kindSwitch : GoVal → String → List Nat → List String × List Nat :=
      fun v pfx visited =>
        match v with
        | .structV name fields =>
          let header :=
            if pfx = "" then "Struct: " ++ name
            else pfx ++ ": " ++ name ++ " \x7b"
          let r := dumpIter (dumpValue heap cfuel) (structItems pfx fields)
            visited
          let closing := if pfx = "" then [] else [pfx ++ ": \x7d"]
          (header :: r.1 ++ closing, r.2)
        | .mapV keyTy valTy entries =>
          let header := pfx ++ ": map[" ++ keyTy ++ "]" ++ valTy
            ++ " (len: " ++ toString entries.length ++ ") \x7b"
          let r := dumpIter (dumpValue heap cfuel) (mapItems pfx entries)
            visited
          (header :: r.1 ++ [pfx ++ ": \x7d"], r.2)
        | .seqV tyStr capv elems =>
          let header := pfx ++ ": " ++ tyStr ++ " (len: "
            ++ toString elems.length ++ ", cap: " ++ toString capv
            ++ ") \x7b"
          let r := dumpIter (dumpValue heap cfuel) (seqItems pfx 0 elems)
            visited
          let more :=
            if dumpMaxElements < elems.length then
              [pfx ++ ": ... (" ++ toString (elems.length - dumpMaxElements)
                ++ " more elements)"]
            else []
          (header :: r.1 ++ more ++ [pfx ++ ": \x7d"], r.2)
        | .scalar txt => ([pfx ++ ": " ++ txt], visited)
        | .nilIface => ([pfx ++ ": <nil>"], visited)
        | .ptrNil => ([pfx ++ ": <nil>"], visited)
        | .ptrTo addr => ([pfx ++ ": 0x" ++ toString addr], visited)
    match v with
    | .nilIface => ([pfx ++ ": <nil>"], visited)
    | .ptrNil => ([pfx ++ ": <nil>"], visited)
    | .ptrTo addr =>
      if addr ∈ visited then
        ([pfx ++ ": <circular reference>"], visited)
      else
        -- visited[ptr] = true, then val = val.Elem()
        let visited1 := addr :: visited
        -- the unwrapped pointee is addressable at the same address
        if addr ∈ visited1 then
          ([pfx ++ ": <circular reference>"], visited1)
        else kindSwitch (heap.getD addr (GoVal.scalar "")) pfx visited1
    | v => kindSwitch v pfx visited

/-- src/dump.go `Service.Dump` (lines 15-59): rejected when the receiver is
nil, the gate is closed, or no logger is published; `Dump(nil)` emits the
single record "Dump: <nil>"; otherwise the recursive walk starts with an
empty visited set at depth 0 (fuel `maxDumpDepth + 1`).  The
counter/WaitGroup increment is paired with a deferred decrement, so the
call has no net counter footprint and only the emitted records are
modelled. -/
def Dump (heap : List GoVal) (s : Option ServiceState) (v : Option GoVal) :
    List String :=
  match s with
  | none => []
  | some st =>
    if !st.isInitialized then []
    else
      match st.logger with
      | none => []
      | some _ =>
        match v with
        | none => ["Dump: <nil>"]
        | some gv => (dumpValue heap (maxDumpDepth + 1) gv "" []).1

/-- The 2-node reference cycle of the repository's own test
(`TestService_Dump`, "dump circular reference"): two `Node` structs whose
`Next` pointers point at each other. -/
def cycleHeap : List GoVal :=
  [GoVal.structV "Node"
      [("Value", true, GoVal.scalar "1"), ("Next", true, GoVal.ptrTo 1)],
   GoVal.structV "Node"
      [("Value", true, GoVal.scalar "2"), ("Next", true, GoVal.ptrTo 0)]]

/-- The first cycle node passed to `Dump` by value. -/
def cycleNodeVal : GoVal :=
  GoVal.structV "Node"
    [("Value", true, GoVal.scalar "1"), ("Next", true, GoVal.ptrTo 1)]

/-- Twenty scalar element texts, the spec's 20-element sequence example. -/
def twentyReprs : List String := (List.range 20).map toString

end StationLogging

namespace StationLogging

/-! ## Theorems: error chain analyzer -/

/-- Claim C4: `buildErrorChain` on a 3-link operation-tagged chain
A(cause=B(cause=C)) with messages "a","b","c" and operation labels
"opA","opB","opC" returns chain=["a","b","c"] (outermost to innermost),
ops=["opA","opB","opC"], root="c" and rootOp="opC" — proved for arbitrary
messages and labels. -/
theorem buildErrorChain_three_detailed_links (a b c oa ob oc : String) :
    buildErrorChain (threeLinkHeap a b c oa ob oc) (some 0)
      = ([a, b, c], [oa, ob, oc], c, oc) := rfl

/-- Claim C5: `buildErrorChain` on a generic wrapper whose single-cause
unwrap yields the 3-link operation-tagged chain returns the generic layer's
message first with an empty op entry, the inner chain unchanged after it,
and the same root/rootOp as the inner chain alone. -/
theorem buildErrorChain_generic_wrap (g a b c oa ob oc : String) :
    buildErrorChain (genericWrapHeap g a b c oa ob oc) (some 0)
      = (g :: [a, b, c], "" :: [oa, ob, oc], c, oc)
    ∧ buildErrorChain (threeLinkHeap a b c oa ob oc) (some 0)
      = ([a, b, c], [oa, ob, oc], c, oc) := by
  constructor
  · rfl
  · rfl

/-- Accumulator invariant for claim C6: the loop adds at most `fuel` further
entries and keeps `chain` and `ops` the same length. -/
theorem buildErrorChainAux_length (heap : ErrHeap) :
    ∀ (fuel : Nat) (err : Option Nat) (chain ops seen : List String),
      ops.length = chain.length →
      (buildErrorChainAux heap fuel err chain ops seen).2.length
        = (buildErrorChainAux heap fuel err chain ops seen).1.length
      ∧ (buildErrorChainAux heap fuel err chain ops seen).1.length
        ≤ chain.length + fuel := by
  intro fuel
  induction fuel with
  | zero =>
    intro err chain ops seen h
    simp [buildErrorChainAux, h]
  | succ n ih =>
    intro err chain ops seen h
    cases err with
    | none => simp [buildErrorChainAux, h]
    | some i =>
      cases hnode : heap[i]? with
      | none => simp [buildErrorChainAux, hnode, h]
      | some node =>
        cases hkind : node.kind with
        | detailed =>
          obtain ⟨h1, h2⟩ := ih node.cause (chain ++ [node.msg])
            (ops ++ [node.op]) seen (by simp [h])
          simp only [buildErrorChainAux, hnode, hkind]
          refine ⟨h1, ?_⟩
          simp only [List.length_append, List.length_cons,
            List.length_nil] at h2 ⊢
          omega
        | generic =>
          by_cases hseen : node.msg ∈ seen
          · simp [buildErrorChainAux, hnode, hkind, hseen, h]
          · obtain ⟨h1, h2⟩ := ih node.cause (chain ++ [node.msg])
              (ops ++ [""]) (node.msg :: seen) (by simp [h])
            simp only [buildErrorChainAux, hnode, hkind, hseen, if_neg,
              not_false_iff]
            refine ⟨h1, ?_⟩
            simp only [List.length_append, List.length_cons,
              List.length_nil] at h2 ⊢
            omega

/-- Claim C6: `buildErrorChain` is total (it is a Lean function defined by
structural recursion on the remaining hop budget, mirroring the code's
`visited < maxDepth` guard), and for every input error graph the returned
chain has at most 50 entries while the ops list always has exactly the same
length as the chain. -/
theorem buildErrorChain_bounded (heap : ErrHeap) (err : Option Nat) :
    (buildErrorChain heap err).1.length ≤ 50
    ∧ (buildErrorChain heap err).2.1.length
      = (buildErrorChain heap err).1.length := by
  have h := buildErrorChainAux_length heap maxErrDepth err [] [] [] rfl
  simp only [buildErrorChain, maxErrDepth] at *
  exact ⟨by simpa using h.2, h.1⟩

/-- Iteration lemma for claim C10: on the self-referential operation-tagged
error the loop runs to fuel exhaustion, appending the message and label once
per hop; the seen-set never changes because the detailed branch does not
touch it. -/
theorem buildErrorChainAux_selfErr (m o : String) :
    ∀ (fuel : Nat) (chain ops seen : List String),
      buildErrorChainAux (selfErrHeap m o) fuel (some 0) chain ops seen
        = (chain ++ List.replicate fuel m, ops ++ List.replicate fuel o) := by
  intro fuel
  induction fuel with
  | zero => intro chain ops seen; simp [buildErrorChainAux]
  | succ n ih =>
    intro chain ops seen
    rw [buildErrorChainAux]
    show buildErrorChainAux (selfErrHeap m o) n (some 0)
      (chain ++ [m]) (ops ++ [o]) seen = _
    rw [ih]
    simp [List.replicate_succ, List.append_assoc]

/-- Claim C10: the message-equality cycle guard applies only to generic
links; a self-referential operation-tagged error is traversed until the
50-hop cap, yielding a chain of exactly 50 identical entries (and 50
identical operation labels) rather than stopping at the first repeat. -/
theorem buildErrorChain_selfErr (m o : String) :
    buildErrorChain (selfErrHeap m o) (some 0)
      = (List.replicate 50 m, List.replicate 50 o, m, o) := by
  have h := buildErrorChainAux_selfErr m o maxErrDepth [] [] []
  simp only [buildErrorChain, maxErrDepth, List.nil_append] at *
  rw [h]
  have hm : (List.replicate 50 m).getLast? = some m := by
    rw [List.getLast?_eq_getLast _ (by simp)]
    simp [List.getLast_replicate]
  have ho : (List.replicate 50 o).getLast? = some o := by
    rw [List.getLast?_eq_getLast _ (by simp)]
    simp [List.getLast_replicate]
  simp [hm, ho]

/-! ## Theorems: lifecycle and begin-operation protocol -/

/-- The counter effect of one begin-operation on an arbitrary state: a no-op
result leaves `activeOps` unchanged (the early increment is undone on every
no-op path), a tracked result leaves it incremented by one. -/
theorem logEventBuilderSt_activeOps (st : ServiceState) (l : Int) :
    ((logEventBuilderSt st l).1 = .noop →
      ((logEventBuilderSt st l).2).activeOps = st.activeOps)
    ∧ (∀ lv : Int, (logEventBuilderSt st l).1 = .tracked lv →
      ((logEventBuilderSt st l).2).activeOps = st.activeOps + 1) := by
  unfold logEventBuilderSt
  by_cases h1 : st.isInitialized
  · by_cases h2 : l = noLevel
    · simp [h1, h2]
    · cases hlg : st.logger with
      | none => simp [h1, h2, hlg]
      | some lg =>
        by_cases h3 : lg.level > l
        · simp [h1, h2, hlg, h3]
        · by_cases h4 : l = debugLevel ∨ l = infoLevel ∨ l = warnLevel
              ∨ l = errorLevel ∨ l = fatalLevel ∨ l = panicLevel
              ∨ l = traceLevel
          · simp [h1, h2, hlg, h3, h4]
          · simp [h1, h2, hlg, h3, h4]
  · simp [h1]

/-- One matched begin/terminal pair nets the counter to its starting
value. -/
theorem runPair_activeOps (st : ServiceState) (l : Int) :
    (runPair st l).activeOps = st.activeOps := by
  have h := logEventBuilderSt_activeOps st l
  unfold runPair
  rcases he : logEventBuilderSt st l with ⟨e, st1⟩
  cases e with
  | noop =>
    have := h.1 (by rw [he])
    rw [he] at this
    simpa using this
  | tracked lv =>
    have := h.2 lv (by rw [he])
    rw [he] at this
    simp only at this
    simp [trackedTerminal, this]

/-- Claim C1: for every sequence of matched begin-operation/terminal-call
pairs on an initialized Service starting at quiescence, the counter reads
exactly zero after the last terminal call; every terminal call on a tracked
builder decrements the counter exactly once; and a begin-operation that
returns the no-op builder leaves the counter unchanged. -/
theorem quiescence_after_matched_pairs (levels : List Int)
    (st : ServiceState) (h : st.activeOps = 0) :
    (levels.foldl runPair st).activeOps = 0
    ∧ (∀ st2 : ServiceState,
        (trackedTerminal st2).activeOps = st2.activeOps - 1)
    ∧ (∀ (st2 : ServiceState) (l : Int),
        (logEventBuilderSt st2 l).1 = .noop →
        ((logEventBuilderSt st2 l).2).activeOps = st2.activeOps) := by
  refine ⟨?_, fun st2 => rfl, fun st2 l hl =>
    (logEventBuilderSt_activeOps st2 l).1 hl⟩
  have hfold : ∀ s : ServiceState,
      (levels.foldl runPair s).activeOps = s.activeOps := by
    induction levels with
    | nil => intro s; rfl
    | cons a rest ih =>
      intro s
      rw [List.foldl_cons, ih, runPair_activeOps]
  rw [hfold, h]

/-- Witness for claim C1 at a concrete input: an info/error/debug sequence
on the ready service ends at counter zero. -/
theorem quiescence_after_matched_pairs_witness :
    (([infoLevel, errorLevel, debugLevel]).foldl runPair
      readyService).activeOps = 0 :=
  (quiescence_after_matched_pairs [infoLevel, errorLevel, debugLevel]
    readyService rfl).1

/-- Claim C2: `Close` on a nil receiver, on an uninitialized (zero-value)
service, and on an already-closed service returns no error (and, the model
being a total function over these paths, cannot panic); after any first
`Close` the service is no longer initialized, so every repeated `Close` is
a no-op returning no error and changing nothing. -/
theorem close_idempotent_safe :
    close none = (none, none)
    ∧ (∀ st : ServiceState, st.isInitialized = false →
        close (some st) = (none, some st))
    ∧ (∀ st : ServiceState,
        close ((close (some st)).2) = (none, (close (some st)).2)) := by
  refine ⟨rfl, ?_, ?_⟩
  · intro st h
    simp [close, h]
  · intro st
    by_cases h : st.isInitialized
    · cases hfw : st.fileWriter with
      | none => simp [close, h, hfw]
      | some w =>
        cases hce : w.closeErr with
        | none => simp [close, h, hfw, hce]
        | some e => simp [close, h, hfw, hce]
    · simp [close, h]

/-- Witness for claim C2: closing the fresh zero-value service returns no
error and leaves it untouched, and a second close after closing the ready
service is a no-op. -/
theorem close_idempotent_safe_witness :
    close (some freshService) = (none, some freshService)
    ∧ close ((close (some readyService)).2)
      = (none, (close (some readyService)).2) :=
  ⟨close_idempotent_safe.2.1 freshService rfl,
    close_idempotent_safe.2.2 readyService⟩

/-- The once-guarded body never touches the `sync.Once` flag or the injected
config-service reference. -/
theorem initBody_preserves (env : InitEnv) (st : ServiceState) :
    (initBody env st).onceDone = st.onceDone
    ∧ (initBody env st).hasConfigService = st.hasConfigService := by
  refine ⟨?_, ?_⟩ <;>
    · unfold initBody InitializeWriters
      repeat' (first | split | simp only [])

/-- If the once-guarded body fails, it records the error and publishes
nothing: the logger pointer and the ready flag keep their pre-call values. -/
theorem initBody_error_no_publish (env : InitEnv) (st : ServiceState)
    (hie : st.initErr = none)
    (he : (initBody env st).initErr.isSome = true) :
    (initBody env st).logger = st.logger
    ∧ (initBody env st).isInitialized = st.isInitialized := by
  unfold initBody InitializeWriters at *
  repeat' (first | split at he | simp only [] at he)
  all_goals repeat' (first | split | simp only [])
  all_goals simp_all

/-- Claim C3: on a fresh service (config service injected, never
initialized), if any step of `Initialize` fails then an error is returned
and no logger is ever published (the pointer stays nil, the service never
becomes Ready); and every subsequent `Initialize` call — under any
environment, so without re-running any side effect — returns the first
call's result and leaves the state untouched. -/
theorem Initialize_all_or_nothing_once (env : InitEnv) (wd : String)
    (lc : Option LoggingConfig) (fw : Option FileWriter) (ao wgc : Int) :
    ((Initialize env
        (some ⟨wd, true, lc, fw, none, false, false, none, ao, wgc⟩)).1.isSome
          = true →
      ∃ st1 : ServiceState,
        (Initialize env
          (some ⟨wd, true, lc, fw, none, false, false, none, ao, wgc⟩)).2
            = some st1
        ∧ st1.logger = none ∧ st1.isInitialized = false)
    ∧ (∀ env2 : InitEnv,
        Initialize env2
          (Initialize env
            (some ⟨wd, true, lc, fw, none, false, false, none, ao, wgc⟩)).2
          = Initialize env
              (some ⟨wd, true, lc, fw, none, false, false, none, ao, wgc⟩)) := by
  have hpres :=
    initBody_preserves env ⟨wd, true, lc, fw, none, false, true, none, ao, wgc⟩
  constructor
  · intro herr
    have herr1 :
        (initBody env
          ⟨wd, true, lc, fw, none, false, true, none, ao,
            wgc⟩).initErr.isSome = true := herr
    refine ⟨initBody env ⟨wd, true, lc, fw, none, false, true, none, ao, wgc⟩,
      rfl, ?_⟩
    have := initBody_error_no_publish env
      ⟨wd, true, lc, fw, none, false, true, none, ao, wgc⟩ rfl herr1
    simpa using this
  · intro env2
    show Initialize env2
      (some (initBody env ⟨wd, true, lc, fw, none, false, true, none, ao,
        wgc⟩)) = _
    have hcfg :
        (initBody env
          ⟨wd, true, lc, fw, none, false, true, none, ao,
            wgc⟩).hasConfigService = true := hpres.2
    have honce :
        (initBody env
          ⟨wd, true, lc, fw, none, false, true, none, ao, wgc⟩).onceDone
          = true := hpres.1
    simp only [Initialize, hcfg, honce, Bool.not_true, Bool.false_eq_true,
      if_false, if_true]

/-- Witness for claim C3: the environment whose config retrieval fails
makes the first `Initialize` fail with no published logger, and the second
call returns the same result. -/
theorem Initialize_all_or_nothing_once_witness :
    (∃ st1 : ServiceState,
      (Initialize failingEnv (some freshService)).2 = some st1
        ∧ st1.logger = none ∧ st1.isInitialized = false)
    ∧ Initialize failingEnv (Initialize failingEnv (some freshService)).2
      = Initialize failingEnv (some freshService) :=
  ⟨(Initialize_all_or_nothing_once failingEnv "" none none 0 0).1 rfl,
    (Initialize_all_or_nothing_once failingEnv "" none none 0 0).2
      failingEnv⟩

/-- Claim C7: on an initialized service whose published snapshot's severity
threshold is stricter than the requested level, the begin-operation entry
point returns the no-op builder and the state — quiescence counter,
published logger, lifecycle flags, everything — is exactly what it was
before the call (the early increment is undone). -/
theorem disabled_level_frame (st : ServiceState) (lg : Logger) (l : Int)
    (hinit : st.isInitialized = true) (hlog : st.logger = some lg)
    (hgt : lg.level > l) :
    logEventBuilder (some st) l = (.noop, some st) := by
  obtain ⟨swd, shc, slc, sfw, slog, sinit, sonce, sie, sao, swg⟩ := st
  dsimp only at hinit hlog
  subst hinit
  subst hlog
  by_cases hnl : l = noLevel
  · simp [logEventBuilder, logEventBuilderSt, hnl]
  · simp [logEventBuilder, logEventBuilderSt, hnl, hgt, Int.add_sub_cancel]

/-- Witness for claim C7: requesting debug on the info-threshold ready
service returns the no-op builder and the identical state. -/
theorem disabled_level_frame_witness :
    logEventBuilder (some readyService) debugLevel
      = (.noop, some readyService) :=
  disabled_level_frame readyService ⟨infoLevel, true, 0⟩ debugLevel rfl rfl
    (by norm_num [infoLevel, debugLevel])

/-! ## Theorems: generic value dumper -/

/-- A scalar leaf always emits exactly one record (the formatted value, or
the max-depth marker once the fuel is spent) and never touches the visited
set. -/
theorem dumpValue_scalar_shape (heap : List GoVal) (cfuel : Nat)
    (txt pfx : String) (vis : List Nat) :
    (dumpValue heap cfuel (GoVal.scalar txt) pfx vis).1.length = 1
    ∧ (dumpValue heap cfuel (GoVal.scalar txt) pfx vis).2 = vis := by
  cases cfuel with
  | zero => exact ⟨rfl, rfl⟩
  | succ n => exact ⟨rfl, rfl⟩

/-- The child loop on items whose values are all scalar leaves emits
exactly one record per item and returns the visited set unchanged. -/
theorem dumpIter_scalar_length (heap : List GoVal) (cfuel : Nat) :
    ∀ (items : List (String × GoVal)) (vis : List Nat),
      (∀ it ∈ items, ∃ txt, it.2 = GoVal.scalar txt) →
      (dumpIter (dumpValue heap cfuel) items vis).1.length = items.length
      ∧ (dumpIter (dumpValue heap cfuel) items vis).2 = vis := by
  intro items
  induction items with
  | nil => intro vis h; exact ⟨rfl, rfl⟩
  | cons it rest ih =>
    intro vis h
    obtain ⟨txt, htxt⟩ := h it (by simp)
    obtain ⟨p, v⟩ := it
    simp only at htxt
    subst htxt
    have h1 := dumpValue_scalar_shape heap cfuel txt p vis
    have h2 := ih vis (fun x hx => h x (by simp [hx]))
    simp [dumpIter, h1.1, h1.2, h2.1, h2.2]
    omega

/-- The element loop visits `min n maxElements` indexed elements (counting
from index `i`, `min n (maxElements - i)` of them). -/
theorem seqItems_length (pfx : String) :
    ∀ (elems : List GoVal) (i : Nat),
      (seqItems pfx i elems).length
        = min elems.length (dumpMaxElements - i) := by
  intro elems
  induction elems with
  | nil => intro i; simp [seqItems]
  | cons e rest ih =>
    intro i
    by_cases hi : i < dumpMaxElements
    · simp only [seqItems, hi, if_pos, List.length_cons, ih]
      simp only [dumpMaxElements] at hi ⊢
      omega
    · simp only [seqItems, hi, if_neg, not_false_iff, List.length_nil]
      simp only [dumpMaxElements] at hi ⊢
      omega

/-- Every value the element loop hands to the recursion is one of the
container's elements. -/
theorem seqItems_values (pfx : String) :
    ∀ (elems : List GoVal) (i : Nat),
      ∀ it ∈ seqItems pfx i elems, it.2 ∈ elems := by
  intro elems
  induction elems with
  | nil => intro i it hit; simp [seqItems] at hit
  | cons e rest ih =>
    intro i it hit
    by_cases hi : i < dumpMaxElements
    · simp only [seqItems, hi, if_pos, List.mem_cons] at hit
      rcases hit with h | h
      · simp [h]
      · exact List.mem_cons_of_mem _ (ih (i + 1) it h)
    · simp [seqItems, hi] at hit

/-- The equation of `dumpValue` on an ordered container with fuel left:
header, the looped element records, the remainder summary when more than
`maxElements` elements exist, and the closing brace record. -/
theorem dumpValue_seq (heap : List GoVal) (f : Nat) (tyStr : String)
    (capv : Nat) (elems : List GoVal) (pfx : String) (vis : List Nat) :
    dumpValue heap (f + 1) (GoVal.seqV tyStr capv elems) pfx vis
      = ((pfx ++ ": " ++ tyStr ++ " (len: " ++ toString elems.length
            ++ ", cap: " ++ toString capv ++ ") \x7b")
          :: (dumpIter (dumpValue heap f) (seqItems pfx 0 elems) vis).1
          ++ (if dumpMaxElements < elems.length then
                [pfx ++ ": ... (" ++ toString (elems.length - dumpMaxElements)
                  ++ " more elements)"]
              else [])
          ++ [pfx ++ ": \x7d"],
        (dumpIter (dumpValue heap f) (seqItems pfx 0 elems) vis).2) := rfl

/-- Claim C9: `Dump` of a slice/array of `n` scalars emits the header, at
most 10 indexed element entries — exactly `min n 10` of them, so all `n`
when `n ≤ 10` — then exactly one remainder summary leaf reporting the
`n - 10` remaining elements when `n > 10` (and none otherwise), then the
closing record. -/
theorem dump_seq_element_cap (heap : List GoVal) (st : ServiceState)
    (lg : Logger) (hinit : st.isInitialized = true)
    (hlog : st.logger = some lg) (tyStr : String) (capv : Nat)
    (reprs : List String) :
    Dump heap (some st)
        (some (GoVal.seqV tyStr capv (reprs.map GoVal.scalar)))
      = (": " ++ tyStr ++ " (len: " ++ toString reprs.length ++ ", cap: "
            ++ toString capv ++ ") \x7b")
        :: (dumpIter (dumpValue heap maxDumpDepth)
            (seqItems "" 0 (reprs.map GoVal.scalar)) []).1
        ++ (if 10 < reprs.length then
              [": ... (" ++ toString (reprs.length - 10)
                ++ " more elements)"]
            else [])
        ++ [": \x7d"]
    ∧ (dumpIter (dumpValue heap maxDumpDepth)
        (seqItems "" 0 (reprs.map GoVal.scalar)) []).1.length
      = min reprs.length 10 := by
  constructor
  · obtain ⟨swd, shc, slc, sfw, slog, sinit, sonce, sie, sao, swg⟩ := st
    dsimp only at hinit hlog
    subst hinit
    subst hlog
    show (dumpValue heap (maxDumpDepth + 1)
        (GoVal.seqV tyStr capv (reprs.map GoVal.scalar)) "" []).1 = _
    rw [dumpValue_seq]
    simp only [List.length_map, dumpMaxElements]
    rfl
  · have hs := (dumpIter_scalar_length heap maxDumpDepth
      (seqItems "" 0 (reprs.map GoVal.scalar)) []
      (fun it hit => by
        have := seqItems_values "" (reprs.map GoVal.scalar) 0 it hit
        rcases List.mem_map.mp this with ⟨txt, _, htxt⟩
        exact ⟨txt, htxt.symm⟩)).1
    rw [hs, seqItems_length, List.length_map]
    simp [dumpMaxElements]

/-- Witness for claim C9: dumping the 20-element sequence of scalar texts
emits the header, exactly 10 element entries, one "10 more elements"
summary and the closing record. -/
theorem dump_seq_element_cap_witness :
    Dump [] (some readyService)
        (some (GoVal.seqV "[]int" 20 (twentyReprs.map GoVal.scalar)))
      = (": []int (len: 20, cap: 20) \x7b")
        :: (dumpIter (dumpValue [] maxDumpDepth)
            (seqItems "" 0 (twentyReprs.map GoVal.scalar)) []).1
        ++ [": ... (10 more elements)"]
        ++ [": \x7d"]
    ∧ (dumpIter (dumpValue [] maxDumpDepth)
        (seqItems "" 0 (twentyReprs.map GoVal.scalar)) []).1.length
      = 10 := by
  have h := dump_seq_element_cap [] readyService ⟨infoLevel, true, 0⟩
    rfl rfl "[]int" 20 twentyReprs
  constructor
  · rw [h.1]; rfl
  · rw [h.2]; decide

/-- Claim C8, stated over the total model (the embedding is a plain
recursive function, so every input yields a record list — the code's
"never raises" contract): once the recursion depth exceeds the fixed
maximum the call emits the single "max depth reached" leaf; reaching a
pointer whose target address is already in the visited set — which, the
address having just been recorded by the pointer arm itself, is every
non-nil pointer dereference — emits the single "circular reference" leaf
instead of recursing; and on the repository test's 2-node reference cycle
`Dump` terminates with the circular-reference marker. -/
theorem dump_cycle_and_depth_safe :
    (∀ (heap : List GoVal) (v : GoVal) (pfx : String) (vis : List Nat),
      dumpValue heap 0 v pfx vis = ([pfx ++ ": <max depth reached>"], vis))
    ∧ (∀ (heap : List GoVal) (f addr : Nat) (pfx : String) (vis : List Nat),
        dumpValue heap (f + 1) (GoVal.ptrTo addr) pfx vis
          = ([pfx ++ ": <circular reference>"],
             if addr ∈ vis then vis else addr :: vis))
    ∧ Dump cycleHeap (some readyService) (some cycleNodeVal)
      = ["Struct: Node", "Value: 1", "Next: <circular reference>"]
    ∧ Dump cycleHeap (some readyService) (some (GoVal.ptrTo 0))
      = [": <circular reference>"] := by
  refine ⟨fun heap v pfx vis => rfl, ?_, rfl, rfl⟩
  intro heap f addr pfx vis
  by_cases h : addr ∈ vis
  · simp [dumpValue, h]
  · simp [dumpValue, h]

end StationLogging
